import Mathlib

set_option maxRecDepth 40000

/-!
Verification of the claim-verification job tracker of the Aletheia dashboard.

The subsystem under study is `ClaimProcessingService`
(`frontend/lib/claimProcessingService.ts`) together with the submission path of
`useClaimAnalysis` (`frontend/hooks/useClaimAnalysis.ts`).  The service keeps

  * `activePolling : Map<string, Timeout>` — job id to pending timer handle,
  * `callbacks : Map<string, ClaimProcessingCallbacks>` — job id to bundle,
  * a single localStorage slot `active_claim_processing` holding the durable
    job pointer `{claimId, token, startTime, attempt}`.

The embedding below represents the service state explicitly and renders each
method (`startPolling`, `poll`, `stopPolling`, `getActiveClaim`,
`resumePolling`) as a state transformer that also returns the list of
observable events of that call: network requests issued, callback invocations,
and timer scheduling.  The network is an oracle: each executed poll tick takes
the backend response (and, for the completed branch, the outcome of the
secondary agents fetch) as an explicit argument.  Timestamps (`Date.now()`) are
a `Nat` clock carried in the state.  Timer handles are `Nat` ids drawn from a
counter; the list `timers` holds exactly the timers that are scheduled and have
neither fired nor been cleared.
-/

namespace Aletheia

/-- `MAX_POLL_ATTEMPTS` from `claimProcessingService.ts` (75 ticks ≈ 5 minutes
at 4 s intervals). -/
def MAX_POLL_ATTEMPTS : Nat := 75

/-- `POLL_INTERVAL_MS` from `claimProcessingService.ts`. -/
def POLL_INTERVAL_MS : Nat := 4000

/-- The durable job pointer stored in the localStorage slot
(`ActiveClaim` in the source). -/
structure ActiveClaim where
  claimId : String
  token : String
  startTime : Nat
  attempt : Nat
deriving DecidableEq, Repr

/-- The argument triple a scheduled timer will pass to `poll` when it fires
(`() => this.poll(claimId, token, attempt + 1)` in the source). -/
structure Pending where
  claimId : String
  token : String
  attempt : Nat
deriving DecidableEq, Repr

/-- The JSON body of a verdict response, restricted to the fields the service
reads: `data.status`, `data.processing_stage`, and `data.error?.message`. -/
structure StatusData where
  status : String
  processing_stage : Option String
  errorMessage : Option String
deriving DecidableEq, Repr

/-- Outcome of the status request of one tick.  `fetchError` is the fetch (or
json parse) throwing — the payload is `e.message` when the thrown value is an
`Error`; `notOk` is a response with `!response.ok`; `ok` is a 2xx response
with its parsed body. -/
inductive Resp where
  | fetchError (msg : Option String)
  | notOk
  | ok (data : StatusData)
deriving DecidableEq, Repr

/-- Outcome of the secondary agents fetch performed in the completed branch. -/
inductive AgentsResp where
  | err
  | notOk
  | ok (agents : List Nat)
deriving DecidableEq, Repr

/-- Observable events of one service call: requests issued, callback
invocations (tagged with the numeric id of the callback bundle that received
them), timer scheduling, and the console log of a failed agents fetch. -/
inductive Event where
  | statusRequest (claimId : String)
  | onStageUpdate (bundle : Nat) (stage : Option String)
  | onComplete (bundle : Nat) (data : StatusData)
  | onError (bundle : Nat) (msg : String)
  | agentsRequest (claimId : String)
  | onAgentsUpdate (bundle : Nat) (agents : List Nat)
  | scheduled (claimId : String) (attempt : Nat) (delayMs : Nat)
  | agentsFetchFailureLogged (claimId : String)
deriving DecidableEq, Repr

/-- The in-memory and durable state of `ClaimProcessingService`, plus the
timer runtime (`timers` = scheduled, unfired, uncleared timeouts) and the
clock. -/
structure ServiceState where
  timers : List (Nat × Pending)
  activePolling : String → Option Nat
  callbacks : String → Option Nat
  storage : Option ActiveClaim
  nextId : Nat
  now : Nat

/-- Point update of a string-keyed map (`Map.set` / `Map.delete`). -/
def mapSet {α : Type} (m : String → Option α) (k : String) (v : Option α) :
    String → Option α :=
  fun q => if q = k then v else m q

/-- The localStorage clearing step of `stopPolling`: remove the stored pointer
exactly when its `claimId` equals the id being stopped. -/
def clearStorageFor (claimId : String) (st : Option ActiveClaim) :
    Option ActiveClaim :=
  match st with
  | some ac => if ac.claimId = claimId then none else some ac
  | none => none

/-- `stopPolling(claimId)`: clear the pending timeout registered for
`claimId` (if any) and drop its map entry, delete the callback bundle, and
clear the durable pointer when it refers to this `claimId`. -/
def stopPolling (s : ServiceState) (claimId : String) : ServiceState :=
  match s.activePolling claimId with
  | some tid =>
      { s with
        timers := s.timers.filter (fun tp => tp.1 != tid),
        activePolling := mapSet s.activePolling claimId none,
        callbacks := mapSet s.callbacks claimId none,
        storage := clearStorageFor claimId s.storage }
  | none =>
      { s with
        callbacks := mapSet s.callbacks claimId none,
        storage := clearStorageFor claimId s.storage }

/-- `setTimeout(() => this.poll(claimId, token, attempt), POLL_INTERVAL_MS)`
followed by `this.activePolling.set(claimId, timeoutId)`. -/
def pushTimer (s : ServiceState) (claimId token : String) (attempt : Nat) :
    ServiceState :=
  { s with
    timers := s.timers ++ [(s.nextId, ⟨claimId, token, attempt⟩)],
    activePolling := mapSet s.activePolling claimId (some s.nextId),
    nextId := s.nextId + 1 }

/-- The event segment of the secondary agents fetch in the completed branch:
the request is always issued; on a 2xx response `onAgentsUpdate` fires; a
thrown error is logged via `console.error` only. -/
def agentsEvents (claimId : String) (bundle : Nat) (a : AgentsResp) :
    List Event :=
  match a with
  | .ok ags => [.agentsRequest claimId, .onAgentsUpdate bundle ags]
  | .notOk => [.agentsRequest claimId]
  | .err => [.agentsRequest claimId, .agentsFetchFailureLogged claimId]

/-- One poll tick (`ClaimProcessingService.poll`).  Mirrors the source
line by line: the attempt-ceiling guard runs before any request; a transport
failure or non-2xx response surfaces `onError` and stops; a 2xx response with
no registered callback bundle is ignored (stop and return); otherwise the
branches on `data.status` run, the unknown-status branch rescheduling without
touching the stage callback or the durable pointer. -/
def poll (s : ServiceState) (claimId token : String) (attempt : Nat)
    (resp : Resp) (aresp : AgentsResp) : ServiceState × List Event :=
  if MAX_POLL_ATTEMPTS ≤ attempt then
    match s.callbacks claimId with
    | some b =>
        (stopPolling s claimId,
          [.onError b "Analysis timed out after 5 minutes. Please try again."])
    | none => (stopPolling s claimId, [])
  else
    match resp with
    | .fetchError msg =>
        (stopPolling s claimId,
          .statusRequest claimId ::
            (match s.callbacks claimId with
             | some b => [.onError b (msg.getD "Polling error")]
             | none => []))
    | .notOk =>
        (stopPolling s claimId,
          .statusRequest claimId ::
            (match s.callbacks claimId with
             | some b => [.onError b "Failed to fetch verdict"]
             | none => []))
    | .ok data =>
        match s.callbacks claimId with
        | none => (stopPolling s claimId, [.statusRequest claimId])
        | some b =>
            if data.status = "processing" then
              ({ pushTimer s claimId token (attempt + 1) with
                   storage := some ⟨claimId, token, s.now, attempt + 1⟩ },
               [.statusRequest claimId,
                .onStageUpdate b (some (data.processing_stage.getD "Processing...")),
                .scheduled claimId (attempt + 1) POLL_INTERVAL_MS])
            else if data.status = "completed" then
              (stopPolling s claimId,
               [.statusRequest claimId, .onStageUpdate b none, .onComplete b data]
                 ++ agentsEvents claimId b aresp)
            else if data.status = "failed" then
              (stopPolling s claimId,
               [.statusRequest claimId,
                .onStageUpdate b (some (data.processing_stage.getD "Failed")),
                .onError b (data.errorMessage.getD "Analysis failed. Try again.")])
            else
              (pushTimer s claimId token (attempt + 1),
               [.statusRequest claimId,
                .scheduled claimId (attempt + 1) POLL_INTERVAL_MS])

/-- The part of `startPolling` that precedes the first tick: stop any existing
polling for this claim, store a fresh durable pointer with `attempt = 0`, and
register the callback bundle. -/
def registerStart (s : ServiceState) (claimId token : String) (bundle : Nat) :
    ServiceState :=
  let s1 := stopPolling s claimId
  { s1 with
    storage := some ⟨claimId, token, s1.now, 0⟩,
    callbacks := mapSet s1.callbacks claimId (some bundle) }

/-- `startPolling(claimId, token, callbacks)`: `registerStart` followed by the
immediately awaited first tick `poll(claimId, token, 0)`. -/
def startPolling (s : ServiceState) (claimId token : String) (bundle : Nat)
    (resp : Resp) (aresp : AgentsResp) : ServiceState × List Event :=
  poll (registerStart s claimId token bundle) claimId token 0 resp aresp

/-- `getActiveClaim()`: read the durable pointer. -/
def getActiveClaim (s : ServiceState) : Option ActiveClaim :=
  s.storage

/-- `resumePolling(callbacks)`: if a durable pointer exists, register the
bundle under its `claimId` and poll at the persisted token and attempt. -/
def resumePolling (s : ServiceState) (bundle : Nat) (resp : Resp)
    (aresp : AgentsResp) : ServiceState × List Event :=
  match getActiveClaim s with
  | none => (s, [])
  | some ac =>
      poll { s with callbacks := mapSet s.callbacks ac.claimId (some bundle) }
        ac.claimId ac.token ac.attempt resp aresp

/-- A scheduled timeout fires: the timer is consumed by the runtime and the
recorded `poll` call runs.  Firing an id that is no longer scheduled is a
no-op. -/
def fire (s : ServiceState) (tid : Nat) (resp : Resp) (aresp : AgentsResp) :
    ServiceState × List Event :=
  match s.timers.find? (fun tp => tp.1 == tid) with
  | none => (s, [])
  | some tp =>
      poll { s with timers := s.timers.filter (fun q => q.1 != tid) }
        tp.2.claimId tp.2.token tp.2.attempt resp aresp

/-- The operations an environment can perform against the service: the public
methods, a timer firing, and the clock advancing. -/
inductive Op where
  | start (claimId token : String) (bundle : Nat) (resp : Resp) (aresp : AgentsResp)
  | stop (claimId : String)
  | resume (bundle : Nat) (resp : Resp) (aresp : AgentsResp)
  | fire (tid : Nat) (resp : Resp) (aresp : AgentsResp)
  | advance (ms : Nat)
deriving DecidableEq, Repr

/-- Whether an operation is a `resumePolling` call. -/
def Op.isResume : Op → Bool
  | .resume .. => true
  | _ => false

/-- Whether an operation registers the callback bundle `b`. -/
def Op.usesBundle : Op → Nat → Bool
  | .start _ _ b' _ _, b => b' == b
  | .resume b' _ _, b => b' == b
  | _, _ => false

/-- Whether an event is an invocation of callback bundle `b`. -/
def Event.usesBundle : Event → Nat → Bool
  | .onStageUpdate b' _, b => b' == b
  | .onComplete b' _, b => b' == b
  | .onError b' _, b => b' == b
  | .onAgentsUpdate b' _, b => b' == b
  | _, _ => false

/-- Whether an event is a callback invocation (of any bundle). -/
def Event.isCallbackEvent : Event → Bool
  | .onStageUpdate .. => true
  | .onComplete .. => true
  | .onError .. => true
  | .onAgentsUpdate .. => true
  | _ => false

/-- Whether an event is the scheduling of a next tick. -/
def Event.isScheduled : Event → Bool
  | .scheduled .. => true
  | _ => false

/-- Whether an event is a status request. -/
def Event.isStatusRequest : Event → Bool
  | .statusRequest _ => true
  | _ => false

/-- Whether an event is an `onComplete` invocation. -/
def Event.isOnComplete : Event → Bool
  | .onComplete .. => true
  | _ => false

/-- Whether an event is an `onError` invocation. -/
def Event.isOnError : Event → Bool
  | .onError .. => true
  | _ => false

/-- Whether an event is an `onStageUpdate` invocation. -/
def Event.isOnStageUpdate : Event → Bool
  | .onStageUpdate .. => true
  | _ => false

/-- Whether an event is an agents fetch attempt. -/
def Event.isAgentsRequest : Event → Bool
  | .agentsRequest _ => true
  | _ => false

/-- One environment operation against the service. -/
def step (s : ServiceState) : Op → ServiceState × List Event
  | .start c tok b r a => startPolling s c tok b r a
  | .stop c => (stopPolling s c, [])
  | .resume b r a => resumePolling s b r a
  | .fire tid r a => fire s tid r a
  | .advance ms => ({ s with now := s.now + ms }, [])

/-- Run a sequence of operations, returning the final state. -/
def runOps (s : ServiceState) : List Op → ServiceState
  | [] => s
  | op :: ops => runOps (step s op).1 ops

/-- Run a sequence of operations, returning the final state and the
concatenated event trace. -/
def runTrace (s : ServiceState) : List Op → ServiceState × List Event
  | [] => (s, [])
  | op :: ops =>
      let p := step s op
      let q := runTrace p.1 ops
      (q.1, p.2 ++ q.2)

/-- The state of the freshly imported module: no timers, no callbacks, empty
storage slot, clock at 0. -/
def initialState : ServiceState :=
  { timers := []
    activePolling := fun _ => none
    callbacks := fun _ => none
    storage := none
    nextId := 0
    now := 0 }

/-- Number of live (scheduled, unfired, uncleared) timers whose pending call
is for `claimId` — the active poll loops for that id. -/
def timersFor (s : ServiceState) (claimId : String) : Nat :=
  (s.timers.filter (fun tp => tp.2.claimId == claimId)).length

/-- Every live timer is the one registered in the `activePolling` map for its
claim id. -/
def Registered (s : ServiceState) : Prop :=
  ∀ tp ∈ s.timers, s.activePolling tp.2.claimId = some tp.1

/-- No two live timers poll the same claim id. -/
def NodupClaims (s : ServiceState) : Prop :=
  (s.timers.map (fun tp => tp.2.claimId)).Nodup

/-- The scheduler's timer invariant. -/
def Inv (s : ServiceState) : Prop :=
  Registered s ∧ NodupClaims s

/-- A job is fully stopped in state `s`: no callback bundle, no registered
timer handle, no live timer, and no durable pointer for its id. -/
def stoppedFor (s : ServiceState) (claimId : String) : Prop :=
  s.callbacks claimId = none ∧
  s.activePolling claimId = none ∧
  (∀ tp ∈ s.timers, tp.2.claimId ≠ claimId) ∧
  ∀ ac, s.storage = some ac → ac.claimId ≠ claimId

/-- No callback map entry holds bundle `b`. -/
def bundleFree (s : ServiceState) (b : Nat) : Prop :=
  ∀ d, s.callbacks d ≠ some b

/-- `MAX_CLAIM_LENGTH` from `useClaimAnalysis.ts`. -/
def MAX_CLAIM_LENGTH : Nat := 1000

/-- What `analyzeClaim` does with a submission before any polling: either the
empty-content rejection (`setError`, no request), or the POST of the
sanitized body. -/
inductive SubmitAction where
  | rejectedEmpty
  | posted (claim_text : String) (use_web_search : Bool)
      (forced_agents : List String) (media : List String)
deriving DecidableEq, Repr

/-- The submission path of `analyzeClaim` (`useClaimAnalysis.ts`): reject when
the trimmed text is empty and no media is attached; otherwise POST
`claimText.slice(0, MAX_CLAIM_LENGTH)` together with the other fields. -/
def submitBody (claimText : String) (useWebSearch : Bool)
    (forcedAgents : List String) (media : List String) : SubmitAction :=
  if claimText.trim = "" ∧ media = [] then
    .rejectedEmpty
  else
    .posted (claimText.take MAX_CLAIM_LENGTH) useWebSearch forcedAgents media

/-- The spec numbers ticks from 1 (scenario 3 calls the suppressed tick with
attempt index 75 "tick 76"), so the tick executing `poll` at attempt index
`n` is tick number `n + 1`. -/
def tickNumber (attemptIndex : Nat) : Nat :=
  attemptIndex + 1

/-- A canonical processing verdict body used by concrete runs. -/
def procData : StatusData :=
  { status := "processing", processing_stage := some "Researching", errorMessage := none }

/-- A canonical processing response. -/
def procResp : Resp := Resp.ok procData

/-! ### Component lemmas for `stopPolling` and `pushTimer` -/

theorem stopPolling_callbacks (s : ServiceState) (c d : String) :
    (stopPolling s c).callbacks d = if d = c then none else s.callbacks d := by
  unfold stopPolling
  split <;> simp [mapSet]

theorem stopPolling_callbacks_self (s : ServiceState) (c : String) :
    (stopPolling s c).callbacks c = none := by
  rw [stopPolling_callbacks, if_pos rfl]

theorem stopPolling_activePolling_self (s : ServiceState) (c : String) :
    (stopPolling s c).activePolling c = none := by
  unfold stopPolling
  split
  next tid heq => simp [mapSet]
  next heq => simpa using heq

theorem stopPolling_activePolling_other (s : ServiceState) (c d : String)
    (h : d ≠ c) : (stopPolling s c).activePolling d = s.activePolling d := by
  unfold stopPolling
  split <;> simp [mapSet, h]

theorem stopPolling_storage (s : ServiceState) (c : String) :
    (stopPolling s c).storage = clearStorageFor c s.storage := by
  unfold stopPolling
  split <;> rfl

theorem stopPolling_now (s : ServiceState) (c : String) :
    (stopPolling s c).now = s.now := by
  unfold stopPolling
  split <;> rfl

theorem stopPolling_timers_sublist (s : ServiceState) (c : String) :
    (stopPolling s c).timers.Sublist s.timers := by
  unfold stopPolling
  split
  · exact List.filter_sublist _
  · exact List.Sublist.refl _

theorem stopPolling_timers_mem (s : ServiceState) (c : String) :
    ∀ tp ∈ (stopPolling s c).timers, tp ∈ s.timers :=
  fun _ h => (stopPolling_timers_sublist s c).subset h

theorem noTimer_stopPolling (s : ServiceState) (c : String) (hreg : Registered s) :
    ∀ tp ∈ (stopPolling s c).timers, tp.2.claimId ≠ c := by
  intro tp htp hc
  cases hAP : s.activePolling c with
  | none =>
      have hmem : tp ∈ s.timers := stopPolling_timers_mem s c tp htp
      have := hreg tp hmem
      rw [hc, hAP] at this
      exact Option.noConfusion this
  | some tid =>
      unfold stopPolling at htp
      rw [hAP] at htp
      simp only [List.mem_filter] at htp
      have := hreg tp htp.1
      rw [hc, hAP] at this
      have htid : tp.1 = tid := (Option.some.inj this).symm
      have hbne := htp.2
      rw [htid] at hbne
      simp at hbne

theorem pushTimer_timers (s : ServiceState) (c tok : String) (n : Nat) :
    (pushTimer s c tok n).timers = s.timers ++ [(s.nextId, ⟨c, tok, n⟩)] := rfl

theorem pushTimer_callbacks (s : ServiceState) (c tok : String) (n : Nat) :
    (pushTimer s c tok n).callbacks = s.callbacks := rfl

theorem pushTimer_storage (s : ServiceState) (c tok : String) (n : Nat) :
    (pushTimer s c tok n).storage = s.storage := rfl

theorem pushTimer_activePolling (s : ServiceState) (c tok : String) (n : Nat)
    (d : String) :
    (pushTimer s c tok n).activePolling d =
      if d = c then some s.nextId else s.activePolling d := by
  simp [pushTimer, mapSet]

/-! ### The timer invariant -/

theorem registered_stopPolling (s : ServiceState) (c : String)
    (hreg : Registered s) : Registered (stopPolling s c) := by
  intro tp htp
  have hmem := stopPolling_timers_mem s c tp htp
  have hneq := noTimer_stopPolling s c hreg tp htp
  rw [stopPolling_activePolling_other s c _ hneq]
  exact hreg tp hmem

theorem nodupClaims_stopPolling (s : ServiceState) (c : String)
    (hnd : NodupClaims s) : NodupClaims (stopPolling s c) :=
  hnd.sublist ((stopPolling_timers_sublist s c).map _)

theorem inv_stopPolling (s : ServiceState) (c : String) (h : Inv s) :
    Inv (stopPolling s c) :=
  ⟨registered_stopPolling s c h.1, nodupClaims_stopPolling s c h.2⟩

theorem registered_pushTimer (s : ServiceState) (c tok : String) (n : Nat)
    (hreg : Registered s) (hno : ∀ tp ∈ s.timers, tp.2.claimId ≠ c) :
    Registered (pushTimer s c tok n) := by
  intro tp htp
  rw [pushTimer_timers, List.mem_append] at htp
  rcases htp with h | h
  · rw [pushTimer_activePolling, if_neg (hno tp h)]
    exact hreg tp h
  · simp only [List.mem_singleton] at h
    subst h
    rw [pushTimer_activePolling, if_pos rfl]

theorem nodupClaims_pushTimer (s : ServiceState) (c tok : String) (n : Nat)
    (hnd : NodupClaims s) (hno : ∀ tp ∈ s.timers, tp.2.claimId ≠ c) :
    NodupClaims (pushTimer s c tok n) := by
  unfold NodupClaims at *
  rw [pushTimer_timers, List.map_append]
  refine List.Nodup.append hnd (List.nodup_singleton c) ?_
  intro x hx hy
  simp only [List.map_cons, List.map_nil, List.mem_singleton] at hy
  subst hy
  rcases List.mem_map.mp hx with ⟨tp, htp, heq⟩
  exact hno tp htp heq

theorem inv_pushTimer (s : ServiceState) (c tok : String) (n : Nat)
    (h : Inv s) (hno : ∀ tp ∈ s.timers, tp.2.claimId ≠ c) :
    Inv (pushTimer s c tok n) :=
  ⟨registered_pushTimer s c tok n h.1 hno, nodupClaims_pushTimer s c tok n h.2 hno⟩

theorem timersFor_le_one (s : ServiceState) (c : String) (hnd : NodupClaims s) :
    timersFor s c ≤ 1 := by
  unfold timersFor
  rcases hl : s.timers.filter (fun tp => tp.2.claimId == c) with _ | ⟨tp1, rest⟩
  · simp [hl]
  rcases rest with _ | ⟨tp2, l⟩
  · simp [hl]
  exfalso
  have hsub : (tp1 :: tp2 :: l).Sublist s.timers := hl ▸ List.filter_sublist _
  have hmapnd : ((tp1 :: tp2 :: l).map (fun tp => tp.2.claimId)).Nodup :=
    hnd.sublist (hsub.map _)
  have e1 : tp1.2.claimId = c := by
    have : tp1 ∈ s.timers.filter (fun tp => tp.2.claimId == c) := by
      rw [hl]; exact List.mem_cons_self _ _
    simpa using List.of_mem_filter this
  have e2 : tp2.2.claimId = c := by
    have : tp2 ∈ s.timers.filter (fun tp => tp.2.claimId == c) := by
      rw [hl]; exact List.mem_cons_of_mem _ (List.mem_cons_self _ _)
    simpa using List.of_mem_filter this
  rw [List.map_cons, List.map_cons, e1, e2] at hmapnd
  exact (List.nodup_cons.mp hmapnd).1 (List.mem_cons_self c _)

/-! ### Branch equations for `poll` -/

theorem poll_timeout (s : ServiceState) (c tok : String) (b n : Nat)
    (r : Resp) (a : AgentsResp) (hn : MAX_POLL_ATTEMPTS ≤ n)
    (hcb : s.callbacks c = some b) :
    poll s c tok n r a =
      (stopPolling s c,
       [Event.onError b "Analysis timed out after 5 minutes. Please try again."]) := by
  unfold poll
  rw [if_pos hn]
  simp only [hcb]

theorem poll_timeout_noCb (s : ServiceState) (c tok : String) (n : Nat)
    (r : Resp) (a : AgentsResp) (hn : MAX_POLL_ATTEMPTS ≤ n)
    (hcb : s.callbacks c = none) :
    poll s c tok n r a = (stopPolling s c, []) := by
  unfold poll
  rw [if_pos hn]
  simp only [hcb]

theorem poll_fetchError (s : ServiceState) (c tok : String) (b n : Nat)
    (msg : Option String) (a : AgentsResp) (hn : n < MAX_POLL_ATTEMPTS)
    (hcb : s.callbacks c = some b) :
    poll s c tok n (Resp.fetchError msg) a =
      (stopPolling s c,
       [Event.statusRequest c, Event.onError b (msg.getD "Polling error")]) := by
  unfold poll
  rw [if_neg (Nat.not_le.mpr hn)]
  simp only [hcb]

theorem poll_notOk (s : ServiceState) (c tok : String) (b n : Nat)
    (a : AgentsResp) (hn : n < MAX_POLL_ATTEMPTS)
    (hcb : s.callbacks c = some b) :
    poll s c tok n Resp.notOk a =
      (stopPolling s c,
       [Event.statusRequest c, Event.onError b "Failed to fetch verdict"]) := by
  unfold poll
  rw [if_neg (Nat.not_le.mpr hn)]
  simp only [hcb]

theorem poll_ok_noCb (s : ServiceState) (c tok : String) (n : Nat)
    (d : StatusData) (a : AgentsResp) (hn : n < MAX_POLL_ATTEMPTS)
    (hcb : s.callbacks c = none) :
    poll s c tok n (Resp.ok d) a = (stopPolling s c, [Event.statusRequest c]) := by
  unfold poll
  rw [if_neg (Nat.not_le.mpr hn)]
  simp only [hcb]

theorem poll_processing (s : ServiceState) (c tok : String) (b n : Nat)
    (d : StatusData) (a : AgentsResp) (hn : n < MAX_POLL_ATTEMPTS)
    (hcb : s.callbacks c = some b) (hd : d.status = "processing") :
    poll s c tok n (Resp.ok d) a =
      ({ pushTimer s c tok (n + 1) with storage := some ⟨c, tok, s.now, n + 1⟩ },
       [Event.statusRequest c,
        Event.onStageUpdate b (some (d.processing_stage.getD "Processing...")),
        Event.scheduled c (n + 1) POLL_INTERVAL_MS]) := by
  unfold poll
  rw [if_neg (Nat.not_le.mpr hn)]
  simp only [hcb, hd]
  simp

theorem poll_completed (s : ServiceState) (c tok : String) (b n : Nat)
    (d : StatusData) (a : AgentsResp) (hn : n < MAX_POLL_ATTEMPTS)
    (hcb : s.callbacks c = some b) (hd : d.status = "completed") :
    poll s c tok n (Resp.ok d) a =
      (stopPolling s c,
       [Event.statusRequest c, Event.onStageUpdate b none, Event.onComplete b d]
         ++ agentsEvents c b a) := by
  unfold poll
  rw [if_neg (Nat.not_le.mpr hn)]
  simp only [hcb, hd]
  simp

theorem poll_failed (s : ServiceState) (c tok : String) (b n : Nat)
    (d : StatusData) (a : AgentsResp) (hn : n < MAX_POLL_ATTEMPTS)
    (hcb : s.callbacks c = some b) (hd : d.status = "failed") :
    poll s c tok n (Resp.ok d) a =
      (stopPolling s c,
       [Event.statusRequest c,
        Event.onStageUpdate b (some (d.processing_stage.getD "Failed")),
        Event.onError b (d.errorMessage.getD "Analysis failed. Try again.")]) := by
  unfold poll
  rw [if_neg (Nat.not_le.mpr hn)]
  simp only [hcb, hd]
  simp

theorem poll_unknown (s : ServiceState) (c tok : String) (b n : Nat)
    (d : StatusData) (a : AgentsResp) (hn : n < MAX_POLL_ATTEMPTS)
    (hcb : s.callbacks c = some b) (hd1 : d.status ≠ "processing")
    (hd2 : d.status ≠ "completed") (hd3 : d.status ≠ "failed") :
    poll s c tok n (Resp.ok d) a =
      (pushTimer s c tok (n + 1),
       [Event.statusRequest c, Event.scheduled c (n + 1) POLL_INTERVAL_MS]) := by
  unfold poll
  rw [if_neg (Nat.not_le.mpr hn)]
  simp only [hcb, if_neg hd1, if_neg hd2, if_neg hd3]

/-- The state after any tick: the tick either stopped the job, or it scheduled
the successor tick (with some value of the storage slot). -/
theorem poll_state_cases (s : ServiceState) (c tok : String) (n : Nat)
    (r : Resp) (a : AgentsResp) :
    (poll s c tok n r a).1 = stopPolling s c ∨
      ∃ st, (poll s c tok n r a).1 = { pushTimer s c tok (n + 1) with storage := st } := by
  unfold poll
  split
  · split <;> exact Or.inl rfl
  · split
    · exact Or.inl rfl
    · exact Or.inl rfl
    · split
      · exact Or.inl rfl
      · split
        · exact Or.inr ⟨_, rfl⟩
        · split
          · exact Or.inl rfl
          · split
            · exact Or.inl rfl
            · exact Or.inr ⟨(pushTimer s c tok (n + 1)).storage, rfl⟩

theorem poll_fetchError_noCb (s : ServiceState) (c tok : String) (n : Nat)
    (msg : Option String) (a : AgentsResp) (hn : n < MAX_POLL_ATTEMPTS)
    (hcb : s.callbacks c = none) :
    poll s c tok n (Resp.fetchError msg) a =
      (stopPolling s c, [Event.statusRequest c]) := by
  unfold poll
  rw [if_neg (Nat.not_le.mpr hn)]
  simp only [hcb]

theorem poll_notOk_noCb (s : ServiceState) (c tok : String) (n : Nat)
    (a : AgentsResp) (hn : n < MAX_POLL_ATTEMPTS)
    (hcb : s.callbacks c = none) :
    poll s c tok n Resp.notOk a = (stopPolling s c, [Event.statusRequest c]) := by
  unfold poll
  rw [if_neg (Nat.not_le.mpr hn)]
  simp only [hcb]

/-- With no registered callback bundle, a completing tick always just stops. -/
theorem poll_noCb_state (s : ServiceState) (c tok : String) (n : Nat)
    (r : Resp) (a : AgentsResp) (hcb : s.callbacks c = none) :
    (poll s c tok n r a).1 = stopPolling s c := by
  by_cases hn : MAX_POLL_ATTEMPTS ≤ n
  · rw [poll_timeout_noCb s c tok n r a hn hcb]
  · push_neg at hn
    cases r with
    | fetchError msg => rw [poll_fetchError_noCb s c tok n msg a hn hcb]
    | notOk => rw [poll_notOk_noCb s c tok n a hn hcb]
    | ok d => rw [poll_ok_noCb s c tok n d a hn hcb]

/-- With no registered callback bundle, a completing tick emits at most the
status-request event: no callback is invoked and nothing is scheduled. -/
theorem poll_noCb_events (s : ServiceState) (c tok : String) (n : Nat)
    (r : Resp) (a : AgentsResp) (hcb : s.callbacks c = none) :
    (poll s c tok n r a).2 = [] ∨
      (poll s c tok n r a).2 = [Event.statusRequest c] := by
  by_cases hn : MAX_POLL_ATTEMPTS ≤ n
  · rw [poll_timeout_noCb s c tok n r a hn hcb]; exact Or.inl rfl
  · push_neg at hn
    cases r with
    | fetchError msg =>
        rw [poll_fetchError_noCb s c tok n msg a hn hcb]; exact Or.inr rfl
    | notOk => rw [poll_notOk_noCb s c tok n a hn hcb]; exact Or.inr rfl
    | ok d => rw [poll_ok_noCb s c tok n d a hn hcb]; exact Or.inr rfl

/-! ### Invariant preservation -/

theorem inv_poll (s : ServiceState) (c tok : String) (n : Nat) (r : Resp)
    (a : AgentsResp) (h : Inv s) (hno : ∀ tp ∈ s.timers, tp.2.claimId ≠ c) :
    Inv (poll s c tok n r a).1 := by
  rcases poll_state_cases s c tok n r a with hcase | ⟨st, hcase⟩
  · rw [hcase]; exact inv_stopPolling s c h
  · rw [hcase]
    have hpt := inv_pushTimer s c tok (n + 1) h hno
    exact ⟨hpt.1, hpt.2⟩

theorem inv_registerStart (s : ServiceState) (c tok : String) (b : Nat)
    (h : Inv s) : Inv (registerStart s c tok b) :=
  ⟨(inv_stopPolling s c h).1, (inv_stopPolling s c h).2⟩

theorem registerStart_noTimer (s : ServiceState) (c tok : String) (b : Nat)
    (h : Registered s) :
    ∀ tp ∈ (registerStart s c tok b).timers, tp.2.claimId ≠ c :=
  fun tp htp => noTimer_stopPolling s c h tp htp

theorem inv_startPolling (s : ServiceState) (c tok : String) (b : Nat)
    (r : Resp) (a : AgentsResp) (h : Inv s) :
    Inv (startPolling s c tok b r a).1 := by
  unfold startPolling
  exact inv_poll _ c tok 0 r a (inv_registerStart s c tok b h)
    (registerStart_noTimer s c tok b h.1)

theorem inv_fire (s : ServiceState) (tid : Nat) (r : Resp) (a : AgentsResp)
    (h : Inv s) : Inv (fire s tid r a).1 := by
  unfold fire
  split
  · exact h
  next tp hfind =>
    apply inv_poll
    · constructor
      · intro q hq
        rw [List.mem_filter] at hq
        exact h.1 q hq.1
      · exact h.2.sublist ((List.filter_sublist _).map _)
    · intro q hq hcq
      rw [List.mem_filter] at hq
      have hmem : tp ∈ s.timers := List.mem_of_find?_eq_some hfind
      have hqtp : q = tp := List.inj_on_of_nodup_map h.2 hq.1 hmem hcq
      have h1 := List.find?_some hfind
      have h2 := hq.2
      rw [hqtp] at h2
      simp only [beq_iff_eq] at h1
      simp only [bne_iff_ne, ne_eq] at h2
      exact h2 h1

theorem inv_step (s : ServiceState) (op : Op) (h : Inv s)
    (hop : op.isResume = false) : Inv (step s op).1 := by
  cases op with
  | start c tok b r a => exact inv_startPolling s c tok b r a h
  | stop c => exact inv_stopPolling s c h
  | resume b r a => simp [Op.isResume] at hop
  | fire tid r a => exact inv_fire s tid r a h
  | advance ms => exact ⟨h.1, h.2⟩

theorem inv_runOps (ops : List Op) (s : ServiceState) (h : Inv s)
    (hops : ∀ op ∈ ops, op.isResume = false) : Inv (runOps s ops) := by
  induction ops generalizing s with
  | nil => exact h
  | cons op ops ih =>
      exact ih (step s op).1 (inv_step s op h (hops op (List.mem_cons_self _ _)))
        (fun op' h' => hops op' (List.mem_cons_of_mem _ h'))

theorem inv_initialState : Inv initialState := by
  constructor
  · intro tp htp
    simp [initialState] at htp
  · simp [NodupClaims, initialState]

/-! ### Tracking a removed callback bundle -/

theorem bundleFree_stopPolling (s : ServiceState) (c : String) (b : Nat)
    (hb : bundleFree s b) : bundleFree (stopPolling s c) b := by
  intro d
  rw [stopPolling_callbacks]
  split
  · exact fun hx => Option.noConfusion hx
  · exact hb d

theorem bundleFree_register (s : ServiceState) (c : String) (b' b : Nat)
    (hb : bundleFree s b) (hne : b' ≠ b) :
    bundleFree { s with callbacks := mapSet s.callbacks c (some b') } b := by
  intro d
  show mapSet s.callbacks c (some b') d ≠ some b
  unfold mapSet
  split
  · exact fun hx => hne (Option.some.inj hx)
  · exact hb d

theorem bundleFree_registerStart (s : ServiceState) (c tok : String) (b' b : Nat)
    (hb : bundleFree s b) (hne : b' ≠ b) :
    bundleFree (registerStart s c tok b') b := by
  intro d
  show mapSet (stopPolling s c).callbacks c (some b') d ≠ some b
  unfold mapSet
  split
  · exact fun hx => hne (Option.some.inj hx)
  · exact bundleFree_stopPolling s c b hb d

theorem bundleFree_poll (s : ServiceState) (c tok : String) (n : Nat)
    (r : Resp) (a : AgentsResp) (b : Nat) (hb : bundleFree s b) :
    bundleFree (poll s c tok n r a).1 b := by
  rcases poll_state_cases s c tok n r a with hcase | ⟨st, hcase⟩
  · rw [hcase]; exact bundleFree_stopPolling s c b hb
  · rw [hcase]; exact fun d => hb d

theorem agentsEvents_bundle (c : String) (b' b : Nat) (a : AgentsResp)
    (hne : b' ≠ b) : ∀ e ∈ agentsEvents c b' a, e.usesBundle b = false := by
  intro e he
  cases a <;> simp only [agentsEvents, List.mem_cons, List.mem_singleton,
    List.not_mem_nil, or_false] at he
  · rcases he with rfl | rfl <;> simp [Event.usesBundle]
  · rw [he]; simp [Event.usesBundle]
  · rcases he with rfl | rfl <;> simp [Event.usesBundle, hne]

theorem poll_events_bundle (s : ServiceState) (c tok : String) (n : Nat)
    (r : Resp) (a : AgentsResp) (b : Nat) (hb : bundleFree s b) :
    ∀ e ∈ (poll s c tok n r a).2, e.usesBundle b = false := by
  by_cases hn : MAX_POLL_ATTEMPTS ≤ n
  · cases hcb : s.callbacks c with
    | none =>
        rw [poll_timeout_noCb s c tok n r a hn hcb]
        intro e he
        simp at he
    | some b' =>
        have hne : b' ≠ b := fun h => hb c (h ▸ hcb)
        rw [poll_timeout s c tok b' n r a hn hcb]
        intro e he
        simp only [List.mem_singleton] at he
        rw [he]
        simp [Event.usesBundle, hne]
  · push_neg at hn
    cases hcb : s.callbacks c with
    | none =>
        intro e he
        rcases poll_noCb_events s c tok n r a hcb with hev | hev <;> rw [hev] at he
        · simp at he
        · simp only [List.mem_singleton] at he
          rw [he]; simp [Event.usesBundle]
    | some b' =>
        have hne : b' ≠ b := fun h => hb c (h ▸ hcb)
        cases r with
        | fetchError msg =>
            rw [poll_fetchError s c tok b' n msg a hn hcb]
            intro e he
            simp only [List.mem_cons, List.mem_singleton, List.not_mem_nil,
              or_false] at he
            rcases he with rfl | rfl <;> simp [Event.usesBundle, hne]
        | notOk =>
            rw [poll_notOk s c tok b' n a hn hcb]
            intro e he
            simp only [List.mem_cons, List.mem_singleton, List.not_mem_nil,
              or_false] at he
            rcases he with rfl | rfl <;> simp [Event.usesBundle, hne]
        | ok d =>
            by_cases h1 : d.status = "processing"
            · rw [poll_processing s c tok b' n d a hn hcb h1]
              intro e he
              simp only [List.mem_cons, List.mem_singleton, List.not_mem_nil,
                or_false] at he
              rcases he with rfl | rfl | rfl <;> simp [Event.usesBundle, hne]
            · by_cases h2 : d.status = "completed"
              · rw [poll_completed s c tok b' n d a hn hcb h2]
                intro e he
                rw [List.mem_append] at he
                rcases he with he | he
                · simp only [List.mem_cons, List.mem_singleton,
                    List.not_mem_nil, or_false] at he
                  rcases he with rfl | rfl | rfl <;> simp [Event.usesBundle, hne]
                · exact agentsEvents_bundle c b' b a hne e he
              · by_cases h3 : d.status = "failed"
                · rw [poll_failed s c tok b' n d a hn hcb h3]
                  intro e he
                  simp only [List.mem_cons, List.mem_singleton,
                    List.not_mem_nil, or_false] at he
                  rcases he with rfl | rfl | rfl <;> simp [Event.usesBundle, hne]
                · rw [poll_unknown s c tok b' n d a hn hcb h1 h2 h3]
                  intro e he
                  simp only [List.mem_cons, List.mem_singleton,
                    List.not_mem_nil, or_false] at he
                  rcases he with rfl | rfl <;> simp [Event.usesBundle]

theorem step_bundleFree (s : ServiceState) (op : Op) (b : Nat)
    (hb : bundleFree s b) (hop : op.usesBundle b = false) :
    bundleFree (step s op).1 b ∧ ∀ e ∈ (step s op).2, e.usesBundle b = false := by
  cases op with
  | start c tok b' r a =>
      have hne : b' ≠ b := by simpa [Op.usesBundle] using hop
      have hreg := bundleFree_registerStart s c tok b' b hb hne
      exact ⟨bundleFree_poll _ c tok 0 r a b hreg,
        poll_events_bundle _ c tok 0 r a b hreg⟩
  | stop c =>
      exact ⟨bundleFree_stopPolling s c b hb, by intro e he; simp [step] at he⟩
  | resume b' r a =>
      have hne : b' ≠ b := by simpa [Op.usesBundle] using hop
      show bundleFree (resumePolling s b' r a).1 b ∧
        ∀ e ∈ (resumePolling s b' r a).2, e.usesBundle b = false
      unfold resumePolling
      cases hst : getActiveClaim s with
      | none => exact ⟨hb, fun e he => absurd he (List.not_mem_nil e)⟩
      | some ac =>
          have hreg := bundleFree_register s ac.claimId b' b hb hne
          exact ⟨bundleFree_poll _ ac.claimId ac.token ac.attempt r a b hreg,
            poll_events_bundle _ ac.claimId ac.token ac.attempt r a b hreg⟩
  | fire tid r a =>
      show bundleFree (fire s tid r a).1 b ∧
        ∀ e ∈ (fire s tid r a).2, e.usesBundle b = false
      unfold fire
      cases hfind : s.timers.find? (fun tp => tp.1 == tid) with
      | none => exact ⟨hb, fun e he => absurd he (List.not_mem_nil e)⟩
      | some tp =>
          have hb' : bundleFree { s with timers := s.timers.filter (fun q => q.1 != tid) } b :=
            fun d => hb d
          exact ⟨bundleFree_poll _ tp.2.claimId tp.2.token tp.2.attempt r a b hb',
            poll_events_bundle _ tp.2.claimId tp.2.token tp.2.attempt r a b hb'⟩
  | advance ms =>
      exact ⟨fun d => hb d, by intro e he; simp [step] at he⟩

theorem runTrace_bundleFree (ops : List Op) (s : ServiceState) (b : Nat)
    (hb : bundleFree s b) (hops : ∀ op ∈ ops, op.usesBundle b = false) :
    bundleFree (runTrace s ops).1 b ∧
      ∀ e ∈ (runTrace s ops).2, e.usesBundle b = false := by
  induction ops generalizing s with
  | nil => exact ⟨hb, by intro e he; simp [runTrace] at he⟩
  | cons op ops ih =>
      have hstep := step_bundleFree s op b hb (hops op (List.mem_cons_self _ _))
      have hrest := ih (step s op).1 hstep.1
        (fun op' h' => hops op' (List.mem_cons_of_mem _ h'))
      refine ⟨hrest.1, ?_⟩
      intro e he
      have hsplit : (runTrace s (op :: ops)).2
          = (step s op).2 ++ (runTrace (step s op).1 ops).2 := rfl
      rw [hsplit, List.mem_append] at he
      rcases he with h | h
      · exact hstep.2 e h
      · exact hrest.2 e h

/-! ### Stopped jobs -/

theorem clearStorageFor_ne (c : String) (st : Option ActiveClaim) :
    ∀ ac, clearStorageFor c st = some ac → ac.claimId ≠ c := by
  intro ac h
  cases st with
  | none => simp [clearStorageFor] at h
  | some ac0 =>
      simp only [clearStorageFor] at h
      split at h
      · exact Option.noConfusion h
      next hne =>
        cases Option.some.inj h
        exact hne

theorem stoppedFor_stopPolling (s : ServiceState) (c : String)
    (hreg : Registered s) : stoppedFor (stopPolling s c) c := by
  refine ⟨stopPolling_callbacks_self s c, stopPolling_activePolling_self s c,
    noTimer_stopPolling s c hreg, ?_⟩
  intro ac h
  rw [stopPolling_storage] at h
  exact clearStorageFor_ne c s.storage ac h

/-- `String.take` keeps `min n length` characters. -/
theorem take_length (t : String) (n : Nat) :
    (t.take n).length = min n t.length := by
  show (t.take n).1.length = min n t.1.length
  rw [String.data_take]
  exact List.length_take n t.1

/-! ### Concrete runs used by witnesses and counterexamples -/

/-- A single `startPolling` call whose first tick returns `processing`:
afterwards one timer (id 0, attempt 1) is live and the durable pointer holds
attempt 1. -/
def startedState : ServiceState :=
  runOps initialState [Op.start "j" "t" 1 procResp AgentsResp.notOk]

/-- A response with a status string the service does not recognise. -/
def unknownResp : Resp := Resp.ok ⟨"queued", some "Waiting", none⟩

/-- `startPolling` followed by 74 fired ticks, all returning `processing`:
75 executed processing ticks in total, leaving a live timer whose pending
call has attempt index 75. -/
def timeoutRunOps : List Op :=
  Op.start "j" "t" 1 procResp AgentsResp.notOk ::
    (List.range 74).map (fun k => Op.fire k procResp AgentsResp.notOk)

/-- The state reached by `timeoutRunOps`. -/
def timeoutState : ServiceState := runOps initialState timeoutRunOps

/-- `startPolling` followed by 39 fired processing ticks: the durable pointer
holds attempt 40. -/
def fortyState : ServiceState :=
  runOps initialState
    (Op.start "j" "t" 1 procResp AgentsResp.notOk ::
      (List.range 39).map (fun k => Op.fire k procResp AgentsResp.notOk))

/-- A started job state written out directly: one live timer, registered
handle, bundle 1, pointer at attempt 1. -/
def inFlightState : ServiceState :=
  { timers := [(0, ⟨"j", "t", 1⟩)]
    activePolling := mapSet (fun _ => none) "j" (some 0)
    callbacks := mapSet (fun _ => none) "j" (some 1)
    storage := some ⟨"j", "t", 0, 1⟩
    nextId := 1
    now := 0 }

/-- The state after `startPolling` and a 4000 ms clock advance. -/
def advancedState : ServiceState :=
  runOps initialState
    [Op.start "j" "t" 1 procResp AgentsResp.notOk, Op.advance 4000]

/-- A claim text of 1001 identical characters. -/
def longClaim : String := String.mk (List.replicate 1001 'a')

instance (s : ServiceState) : Decidable (Registered s) := by
  unfold Registered; infer_instance

instance (s : ServiceState) : Decidable (NodupClaims s) := by
  unfold NodupClaims; infer_instance

instance (s : ServiceState) : Decidable (Inv s) := by
  unfold Inv; infer_instance

/-! ### The claims -/

/-- Claim C2: a job still `processing` when the attempt count reaches the
ceiling of 75 gets exactly one `onError` with the timeout message; the tick
issues no status request, schedules no further tick, and stops the job
(callbacks, timer handle and matching durable pointer cleared). -/
theorem claim2_timeout_tick (s : ServiceState) (c tok : String) (b n : Nat)
    (r : Resp) (a : AgentsResp) (hInv : Inv s) (hcb : s.callbacks c = some b)
    (hn : MAX_POLL_ATTEMPTS ≤ n) :
    (poll s c tok n r a).2
      = [Event.onError b "Analysis timed out after 5 minutes. Please try again."]
    ∧ (poll s c tok n r a).2.filter Event.isStatusRequest = []
    ∧ (poll s c tok n r a).2.filter Event.isScheduled = []
    ∧ stoppedFor (poll s c tok n r a).1 c := by
  rw [poll_timeout s c tok b n r a hn hcb]
  exact ⟨rfl, rfl, rfl, stoppedFor_stopPolling s c hInv.1⟩

/-- Witness for C2: after 75 consecutive executed processing ticks from
`startPolling`, the pending tick has attempt index 75; executing it emits
exactly the timeout `onError` and stops the job. -/
theorem claim2_timeout_tick_witness :
    timeoutState.timers = [(74, ⟨"j", "t", 75⟩)]
    ∧ (poll timeoutState "j" "t" 75 procResp AgentsResp.notOk).2
        = [Event.onError 1 "Analysis timed out after 5 minutes. Please try again."]
    ∧ stoppedFor (poll timeoutState "j" "t" 75 procResp AgentsResp.notOk).1 "j" :=
  ⟨by decide,
   (claim2_timeout_tick timeoutState "j" "t" 1 75 procResp AgentsResp.notOk
      (by decide) (by decide) (by decide)).1,
   (claim2_timeout_tick timeoutState "j" "t" 1 75 procResp AgentsResp.notOk
      (by decide) (by decide) (by decide)).2.2.2⟩

/-- Claim C3: a tick whose status response is `completed` invokes
`onStage(null)` then `onComplete(verdict)` exactly once, makes exactly one
agents fetch attempt, never invokes `onError` (an agents-fetch failure is
logged only), and stops the job, clearing the durable pointer for this id —
whatever the attempt index and the agents-fetch outcome. -/
theorem claim3_completed_tick (s : ServiceState) (c tok : String) (b n : Nat)
    (d : StatusData) (a : AgentsResp) (hInv : Inv s)
    (hn : n < MAX_POLL_ATTEMPTS) (hcb : s.callbacks c = some b)
    (hd : d.status = "completed") :
    (poll s c tok n (Resp.ok d) a).2
      = [Event.statusRequest c, Event.onStageUpdate b none, Event.onComplete b d]
          ++ agentsEvents c b a
    ∧ ((poll s c tok n (Resp.ok d) a).2.filter Event.isOnComplete).length = 1
    ∧ ((poll s c tok n (Resp.ok d) a).2.filter Event.isAgentsRequest).length = 1
    ∧ (poll s c tok n (Resp.ok d) a).2.filter Event.isOnError = []
    ∧ stoppedFor (poll s c tok n (Resp.ok d) a).1 c := by
  rw [poll_completed s c tok b n d a hn hcb hd]
  refine ⟨rfl, ?_, ?_, ?_, stoppedFor_stopPolling s c hInv.1⟩
  · cases a <;> rfl
  · cases a <;> rfl
  · cases a <;> rfl

/-- Witness for C3: the started job's pending tick completes with a failing
agents fetch; the delivered completion stands and the job stops. -/
theorem claim3_completed_tick_witness :
    (poll startedState "j" "t" 1 (Resp.ok ⟨"completed", none, none⟩) AgentsResp.err).2
      = [Event.statusRequest "j", Event.onStageUpdate 1 none,
         Event.onComplete 1 ⟨"completed", none, none⟩]
          ++ agentsEvents "j" 1 AgentsResp.err
    ∧ (poll startedState "j" "t" 1 (Resp.ok ⟨"completed", none, none⟩)
        AgentsResp.err).2.filter Event.isOnError = []
    ∧ stoppedFor (poll startedState "j" "t" 1 (Resp.ok ⟨"completed", none, none⟩)
        AgentsResp.err).1 "j" :=
  ⟨(claim3_completed_tick startedState "j" "t" 1 1 ⟨"completed", none, none⟩
      AgentsResp.err (by decide) (by decide) (by decide) rfl).1,
   (claim3_completed_tick startedState "j" "t" 1 1 ⟨"completed", none, none⟩
      AgentsResp.err (by decide) (by decide) (by decide) rfl).2.2.2.1,
   (claim3_completed_tick startedState "j" "t" 1 1 ⟨"completed", none, none⟩
      AgentsResp.err (by decide) (by decide) (by decide) rfl).2.2.2.2⟩

/-- Claim C6: `stopPolling(jobId)` cancels the pending timer for that id and
discards its callback bundle; it clears the durable pointer exactly when the
stored pointer's `claimId` equals `jobId`, and otherwise leaves the durable
slot unchanged; callbacks of other ids are untouched. -/
theorem claim6_stop_frame (s : ServiceState) (c : String) (hInv : Inv s) :
    (stopPolling s c).callbacks c = none
    ∧ (stopPolling s c).activePolling c = none
    ∧ (∀ tp ∈ (stopPolling s c).timers, tp.2.claimId ≠ c)
    ∧ (∀ tp ∈ (stopPolling s c).timers, tp ∈ s.timers)
    ∧ (∀ ac, s.storage = some ac → ac.claimId = c → (stopPolling s c).storage = none)
    ∧ (∀ ac, s.storage = some ac → ac.claimId ≠ c → (stopPolling s c).storage = s.storage)
    ∧ (s.storage = none → (stopPolling s c).storage = none)
    ∧ (∀ d, d ≠ c → (stopPolling s c).callbacks d = s.callbacks d) := by
  refine ⟨stopPolling_callbacks_self s c, stopPolling_activePolling_self s c,
    noTimer_stopPolling s c hInv.1, stopPolling_timers_mem s c, ?_, ?_, ?_, ?_⟩
  · intro ac h heq
    rw [stopPolling_storage, h]
    simp [clearStorageFor, heq]
  · intro ac h hne
    rw [stopPolling_storage, h]
    simp [clearStorageFor, hne]
  · intro h
    rw [stopPolling_storage, h]
    rfl
  · intro d hd
    rw [stopPolling_callbacks, if_neg hd]

/-- Witness for C6: stopping id `"k"` while the stored pointer is for `"j"`
drops nothing from the durable slot; stopping `"j"` clears it. -/
theorem claim6_stop_frame_witness :
    (stopPolling startedState "k").storage = startedState.storage
    ∧ (stopPolling startedState "j").storage = none
    ∧ (stopPolling startedState "j").callbacks "j" = none :=
  ⟨(claim6_stop_frame startedState "k" (by decide)).2.2.2.2.2.1
      ⟨"j", "t", 0, 1⟩ (by decide) (by decide),
   (claim6_stop_frame startedState "j" (by decide)).2.2.2.2.1
      ⟨"j", "t", 0, 1⟩ (by decide) rfl,
   (claim6_stop_frame startedState "j" (by decide)).1⟩

/-- Claim C8: a tick whose status request fails in transport (the fetch
throws, or the response is not OK and the tick raises
`Error("Failed to fetch verdict")`) invokes `onError` exactly once with the
failure reason, stops the job, and schedules no further tick — the failed
request is not retried as a new attempt. -/
theorem claim8_transport_failure (s : ServiceState) (c tok : String)
    (b n : Nat) (a : AgentsResp) (hInv : Inv s) (hn : n < MAX_POLL_ATTEMPTS)
    (hcb : s.callbacks c = some b) :
    (∀ msg,
       (poll s c tok n (Resp.fetchError msg) a).2
         = [Event.statusRequest c, Event.onError b (msg.getD "Polling error")]
       ∧ (poll s c tok n (Resp.fetchError msg) a).2.filter Event.isScheduled = []
       ∧ stoppedFor (poll s c tok n (Resp.fetchError msg) a).1 c)
    ∧ ((poll s c tok n Resp.notOk a).2
         = [Event.statusRequest c, Event.onError b "Failed to fetch verdict"]
       ∧ (poll s c tok n Resp.notOk a).2.filter Event.isScheduled = []
       ∧ stoppedFor (poll s c tok n Resp.notOk a).1 c) := by
  constructor
  · intro msg
    rw [poll_fetchError s c tok b n msg a hn hcb]
    exact ⟨rfl, rfl, stoppedFor_stopPolling s c hInv.1⟩
  · rw [poll_notOk s c tok b n a hn hcb]
    exact ⟨rfl, rfl, stoppedFor_stopPolling s c hInv.1⟩

/-- Witness for C8: a thrown fetch with message `"boom"` on the started job's
pending tick surfaces exactly one `onError "boom"` and stops. -/
theorem claim8_transport_failure_witness :
    (poll startedState "j" "t" 1 (Resp.fetchError (some "boom")) AgentsResp.notOk).2
      = [Event.statusRequest "j", Event.onError 1 "boom"]
    ∧ stoppedFor (poll startedState "j" "t" 1 (Resp.fetchError (some "boom"))
        AgentsResp.notOk).1 "j" :=
  ⟨((claim8_transport_failure startedState "j" "t" 1 1 AgentsResp.notOk
      (by decide) (by decide) (by decide)).1 (some "boom")).1,
   ((claim8_transport_failure startedState "j" "t" 1 1 AgentsResp.notOk
      (by decide) (by decide) (by decide)).1 (some "boom")).2.2⟩

/-- Claim C10: every executed processing tick rewrites the durable pointer's
`startTime` to the tick's current clock value (`Date.now()` at the tick),
not the original submission time. -/
theorem claim10_startTime_rewrite (s : ServiceState) (c tok : String)
    (b n : Nat) (d : StatusData) (a : AgentsResp) (hn : n < MAX_POLL_ATTEMPTS)
    (hcb : s.callbacks c = some b) (hd : d.status = "processing") :
    (poll s c tok n (Resp.ok d) a).1.storage = some ⟨c, tok, s.now, n + 1⟩ := by
  rw [poll_processing s c tok b n d a hn hcb hd]

/-- Witness for C10: the job was submitted at clock 0 (stored
`startTime = 0`), the clock has advanced to 4000, and the next processing
tick rewrites the stored `startTime` to 4000. -/
theorem claim10_startTime_rewrite_witness :
    advancedState.now = 4000
    ∧ advancedState.storage = some ⟨"j", "t", 0, 1⟩
    ∧ (poll advancedState "j" "t" 1 procResp AgentsResp.notOk).1.storage
        = some ⟨"j", "t", advancedState.now, 2⟩ :=
  ⟨by decide, by decide,
   claim10_startTime_rewrite advancedState "j" "t" 1 1 procData AgentsResp.notOk
     (by decide) (by decide) rfl⟩

/-- Claim C1 as stated is false: it quantifies over every sequence of
operations, but `resumePolling` does not cancel the existing timer before
polling, so a resume issued while a timer is live leaves two active poll
loops for the same id (the old timer is orphaned, not cancelled). -/
theorem claim1_counterexample :
    ¬ ∀ (ops : List Op) (c : String),
        timersFor (runOps initialState ops) c ≤ 1 := by
  intro h
  have h1 := h [Op.start "j" "t" 1 procResp AgentsResp.notOk,
                Op.resume 2 procResp AgentsResp.notOk] "j"
  have h2 : timersFor (runOps initialState
      [Op.start "j" "t" 1 procResp AgentsResp.notOk,
       Op.resume 2 procResp AgentsResp.notOk]) "j" = 2 := by decide
  omega

/-- Claim C1 amended: over every sequence of operations that does not use
`resumePolling`, the scheduler holds at most one active timer per job id;
and a (second) `startPolling` call cancels any live timer for the id, writes
a fresh durable pointer with attempt 0, and registers the new bundle before
its first tick runs. -/
theorem claim1_amended :
    (∀ (ops : List Op), (∀ op ∈ ops, op.isResume = false) →
       ∀ c, timersFor (runOps initialState ops) c ≤ 1)
    ∧ (∀ (s : ServiceState) (c tok : String) (b : Nat), Inv s →
         (registerStart s c tok b).storage = some ⟨c, tok, s.now, 0⟩
         ∧ (registerStart s c tok b).callbacks c = some b
         ∧ ∀ tp ∈ (registerStart s c tok b).timers, tp.2.claimId ≠ c) := by
  constructor
  · intro ops hops c
    exact timersFor_le_one _ c (inv_runOps ops initialState inv_initialState hops).2
  · intro s c tok b hInv
    refine ⟨?_, ?_, registerStart_noTimer s c tok b hInv.1⟩
    · show some (⟨c, tok, (stopPolling s c).now, 0⟩ : ActiveClaim)
        = some ⟨c, tok, s.now, 0⟩
      rw [stopPolling_now]
    · show mapSet (stopPolling s c).callbacks c (some b) c = some b
      simp [mapSet]

/-- Witness for the amended C1: two back-to-back `startPolling` calls for the
same id leave at most one live timer, and the second registration writes a
fresh attempt-0 pointer for bundle 2. -/
theorem claim1_amended_witness :
    timersFor (runOps initialState
      [Op.start "j" "t" 1 procResp AgentsResp.notOk,
       Op.start "j" "t" 2 procResp AgentsResp.notOk]) "j" ≤ 1
    ∧ (registerStart startedState "j" "t" 2).storage = some ⟨"j", "t", 0, 0⟩
    ∧ (registerStart startedState "j" "t" 2).callbacks "j" = some 2 :=
  ⟨claim1_amended.1
      [Op.start "j" "t" 1 procResp AgentsResp.notOk,
       Op.start "j" "t" 2 procResp AgentsResp.notOk] (by decide) "j",
   (claim1_amended.2 startedState "j" "t" 2 (by decide)).1,
   (claim1_amended.2 startedState "j" "t" 2 (by decide)).2.1⟩

/-- Claim C4 as stated is false for the unknown-status branch: an executed
tick whose response carries status `"queued"` invokes no `onStageUpdate` and
does not overwrite the durable pointer (it stays at attempt 1 instead of
being rewritten with attempt 2); the tick only reschedules. -/
theorem claim4_counterexample :
    (fire startedState 0 unknownResp AgentsResp.notOk).2.filter
        Event.isOnStageUpdate = []
    ∧ (fire startedState 0 unknownResp AgentsResp.notOk).1.storage
        = some ⟨"j", "t", 0, 1⟩
    ∧ (some (⟨"j", "t", 0, 1⟩ : ActiveClaim)
        ≠ some (⟨"j", "t", 0, 2⟩ : ActiveClaim)) := by
  refine ⟨by decide, by decide, by decide⟩

/-- Claim C4 amended: a processing tick invokes `onStage`, increments the
attempt, overwrites the durable pointer with the new attempt, schedules
exactly one next tick after 4000 ms and does not terminate the job; an
unknown-status tick only increments and reschedules — it invokes no stage
callback and leaves the durable pointer untouched. -/
theorem claim4_amended :
    (∀ (s : ServiceState) (c tok : String) (b n : Nat) (d : StatusData)
       (a : AgentsResp), n < MAX_POLL_ATTEMPTS → s.callbacks c = some b →
       d.status = "processing" →
         (poll s c tok n (Resp.ok d) a).2
           = [Event.statusRequest c,
              Event.onStageUpdate b (some (d.processing_stage.getD "Processing...")),
              Event.scheduled c (n + 1) POLL_INTERVAL_MS]
         ∧ (poll s c tok n (Resp.ok d) a).1.storage = some ⟨c, tok, s.now, n + 1⟩
         ∧ (poll s c tok n (Resp.ok d) a).1.timers
             = s.timers ++ [(s.nextId, ⟨c, tok, n + 1⟩)]
         ∧ (poll s c tok n (Resp.ok d) a).1.callbacks c = some b)
    ∧ (∀ (s : ServiceState) (c tok : String) (b n : Nat) (d : StatusData)
       (a : AgentsResp), n < MAX_POLL_ATTEMPTS → s.callbacks c = some b →
       d.status ≠ "processing" → d.status ≠ "completed" → d.status ≠ "failed" →
         (poll s c tok n (Resp.ok d) a).2
           = [Event.statusRequest c, Event.scheduled c (n + 1) POLL_INTERVAL_MS]
         ∧ (poll s c tok n (Resp.ok d) a).1.storage = s.storage
         ∧ (poll s c tok n (Resp.ok d) a).1.timers
             = s.timers ++ [(s.nextId, ⟨c, tok, n + 1⟩)]
         ∧ (poll s c tok n (Resp.ok d) a).1.callbacks c = some b) := by
  constructor
  · intro s c tok b n d a hn hcb hd
    rw [poll_processing s c tok b n d a hn hcb hd]
    exact ⟨rfl, rfl, rfl, hcb⟩
  · intro s c tok b n d a hn hcb h1 h2 h3
    rw [poll_unknown s c tok b n d a hn hcb h1 h2 h3]
    exact ⟨rfl, rfl, rfl, hcb⟩

/-- Witness for the amended C4: the started job's pending processing tick
(attempt 1) and an unknown-status variant of the same tick. -/
theorem claim4_amended_witness :
    (poll startedState "j" "t" 1 procResp AgentsResp.notOk).1.storage
        = some ⟨"j", "t", startedState.now, 2⟩
    ∧ (poll startedState "j" "t" 1 unknownResp AgentsResp.notOk).1.storage
        = startedState.storage
    ∧ (poll startedState "j" "t" 1 unknownResp AgentsResp.notOk).2
        = [Event.statusRequest "j", Event.scheduled "j" 2 POLL_INTERVAL_MS] :=
  ⟨(claim4_amended.1 startedState "j" "t" 1 1 procData AgentsResp.notOk
      (by decide) (by decide) rfl).2.1,
   (claim4_amended.2 startedState "j" "t" 1 1 ⟨"queued", some "Waiting", none⟩
      AgentsResp.notOk (by decide) (by decide) (by decide) (by decide) (by decide)).2.1,
   (claim4_amended.2 startedState "j" "t" 1 1 ⟨"queued", some "Waiting", none⟩
      AgentsResp.notOk (by decide) (by decide) (by decide) (by decide) (by decide)).1⟩

/-- Claim C5: `resumePolling` with a stored pointer continues against the
persisted `claimId`, `credential` and `attemptCount`: the tick it executes is
`poll` at exactly the persisted attempt (so, in the spec's 1-based tick
numbering, resuming from attempt 40 executes tick 41, not tick 1), and when
that tick returns `processing` the rewritten pointer and the scheduled next
tick carry attempt 41. -/
theorem claim5_resume_continues (s : ServiceState) (ac : ActiveClaim)
    (b : Nat) (r : Resp) (a : AgentsResp) (hst : s.storage = some ac) :
    resumePolling s b r a
      = poll { s with callbacks := mapSet s.callbacks ac.claimId (some b) }
          ac.claimId ac.token ac.attempt r a
    ∧ (∀ d : StatusData, ac.attempt = 40 → d.status = "processing" →
        tickNumber ac.attempt = 41
        ∧ (resumePolling s b (Resp.ok d) a).1.storage
            = some ⟨ac.claimId, ac.token, s.now, 41⟩
        ∧ (resumePolling s b (Resp.ok d) a).2.filter Event.isScheduled
            = [Event.scheduled ac.claimId 41 POLL_INTERVAL_MS]) := by
  have hres : ∀ r' a', resumePolling s b r' a'
      = poll { s with callbacks := mapSet s.callbacks ac.claimId (some b) }
          ac.claimId ac.token ac.attempt r' a' := by
    intro r' a'
    unfold resumePolling getActiveClaim
    rw [hst]
  refine ⟨hres r a, ?_⟩
  intro d h40 hd
  have hcb : ({ s with callbacks := mapSet s.callbacks ac.claimId (some b) }
      : ServiceState).callbacks ac.claimId = some b := by
    show mapSet s.callbacks ac.claimId (some b) ac.claimId = some b
    simp [mapSet]
  have hn : ac.attempt < MAX_POLL_ATTEMPTS := by
    rw [h40]; decide
  have hpr := poll_processing _ ac.claimId ac.token b ac.attempt d a hn hcb hd
  refine ⟨by rw [h40]; rfl, ?_, ?_⟩
  · rw [hres (Resp.ok d) a, hpr, h40]
  · rw [hres (Resp.ok d) a, hpr, h40]
    rfl

/-- Witness for C5: the durable pointer holds attempt 40; resuming executes
the pending attempt-40 tick, and on `processing` the pointer and the
scheduled next tick both carry 41. -/
theorem claim5_resume_continues_witness :
    fortyState.storage = some ⟨"j", "t", 0, 40⟩
    ∧ (resumePolling fortyState 2 (Resp.ok procData) AgentsResp.notOk).1.storage
        = some ⟨"j", "t", fortyState.now, 41⟩
    ∧ (resumePolling fortyState 2 (Resp.ok procData)
        AgentsResp.notOk).2.filter Event.isScheduled
        = [Event.scheduled "j" 41 POLL_INTERVAL_MS] :=
  ⟨by decide,
   ((claim5_resume_continues fortyState ⟨"j", "t", 0, 40⟩ 2 (Resp.ok procData)
       AgentsResp.notOk (by decide)).2 procData rfl rfl).2.1,
   ((claim5_resume_continues fortyState ⟨"j", "t", 0, 40⟩ 2 (Resp.ok procData)
       AgentsResp.notOk (by decide)).2 procData rfl rfl).2.2⟩

/-- Claim C7: `stopPolling(jobId)` removes the job's callback bundle; from
then on, over any further operations that do not re-register that bundle, no
event invokes it; and a status response arriving for a request issued before
the stop is ignored — its tick invokes no callback, schedules nothing, and
adds no timer, because the bundle lookup fails. -/
theorem claim7_stop_silences (s : ServiceState) (c : String) (b : Nat)
    (hb : ∀ d, d ≠ c → s.callbacks d ≠ some b)
    (ops : List Op) (hops : ∀ op ∈ ops, op.usesBundle b = false) :
    (stopPolling s c).callbacks c = none
    ∧ (∀ e ∈ (runTrace (stopPolling s c) ops).2, e.usesBundle b = false)
    ∧ (∀ (tok : String) (n : Nat) (r : Resp) (a : AgentsResp),
         (poll (stopPolling s c) c tok n r a).2.filter Event.isCallbackEvent = []
         ∧ (poll (stopPolling s c) c tok n r a).2.filter Event.isScheduled = []
         ∧ ∀ tp ∈ (poll (stopPolling s c) c tok n r a).1.timers,
             tp ∈ (stopPolling s c).timers) := by
  have hfree : bundleFree (stopPolling s c) b := by
    intro d
    by_cases hd : d = c
    · subst hd
      rw [stopPolling_callbacks_self]
      exact fun hx => Option.noConfusion hx
    · rw [stopPolling_callbacks, if_neg hd]
      exact hb d hd
  refine ⟨stopPolling_callbacks_self s c,
    (runTrace_bundleFree ops _ b hfree hops).2, ?_⟩
  intro tok n r a
  have hcb : (stopPolling s c).callbacks c = none := stopPolling_callbacks_self s c
  refine ⟨?_, ?_, ?_⟩
  · rcases poll_noCb_events _ c tok n r a hcb with hev | hev <;> rw [hev] <;> rfl
  · rcases poll_noCb_events _ c tok n r a hcb with hev | hev <;> rw [hev] <;> rfl
  · intro tp htp
    rw [poll_noCb_state _ c tok n r a hcb] at htp
    exact stopPolling_timers_mem _ c tp htp

/-- Witness for C7: stopping the in-flight job removes bundle 1; the old
tick's late response (processing) is ignored, and a subsequent start for a
different id with bundle 2 never invokes bundle 1. -/
theorem claim7_stop_silences_witness :
    (stopPolling inFlightState "j").callbacks "j" = none
    ∧ (∀ e ∈ (runTrace (stopPolling inFlightState "j")
        [Op.start "k" "u" 2 procResp AgentsResp.notOk]).2, e.usesBundle 1 = false)
    ∧ (poll (stopPolling inFlightState "j") "j" "t" 1 procResp
        AgentsResp.notOk).2.filter Event.isCallbackEvent = [] := by
  have hb : ∀ d, d ≠ "j" → inFlightState.callbacks d ≠ some 1 := by
    intro d hd
    show mapSet (fun _ => none) "j" (some 1) d ≠ some 1
    unfold mapSet
    rw [if_neg hd]
    exact fun hx => Option.noConfusion hx
  have h := claim7_stop_silences inFlightState "j" 1 hb
    [Op.start "k" "u" 2 procResp AgentsResp.notOk] (by decide)
  exact ⟨h.1, h.2.1, (h.2.2 "t" 1 procResp AgentsResp.notOk).1⟩

/-- Claim C9: `analyzeClaim` sends the first `MAX_CLAIM_LENGTH = 1000`
characters of the provided text: a non-empty submission is posted with
`claimText.slice(0, 1000)` as its body text, of length at most 1000, and any
longer input is silently truncated (the posted text differs from the input,
with no rejection). -/
theorem claim9_truncation (t : String) (ws : Bool) (fa md : List String)
    (h : ¬ (t.trim = "" ∧ md = [])) :
    submitBody t ws fa md
      = SubmitAction.posted (t.take MAX_CLAIM_LENGTH) ws fa md
    ∧ (t.take MAX_CLAIM_LENGTH).length ≤ MAX_CLAIM_LENGTH
    ∧ (MAX_CLAIM_LENGTH < t.length → t.take MAX_CLAIM_LENGTH ≠ t) := by
  refine ⟨by unfold submitBody; rw [if_neg h], ?_, ?_⟩
  · rw [take_length]
    exact Nat.min_le_left _ _
  · intro hlen heq
    have hl : (t.take MAX_CLAIM_LENGTH).length = t.length :=
      congrArg String.length heq
    rw [take_length] at hl
    omega

/-- Witness for C9: a 1001-character claim is posted truncated, with no
rejection and no error. -/
theorem claim9_truncation_witness :
    submitBody longClaim true [] ["m"]
      = SubmitAction.posted (longClaim.take MAX_CLAIM_LENGTH) true [] ["m"]
    ∧ MAX_CLAIM_LENGTH < longClaim.length
    ∧ longClaim.take MAX_CLAIM_LENGTH ≠ longClaim :=
  ⟨(claim9_truncation longClaim true [] ["m"]
      (fun hx => List.noConfusion hx.2)).1,
   by decide,
   (claim9_truncation longClaim true [] ["m"]
      (fun hx => List.noConfusion hx.2)).2.2 (by decide)⟩

end Aletheia
